import Mathlib

/-!
Shallow embedding of the resource-accounting engine found in `main.py`
(docker runtime-stats variant) and `kubernaties_docker_local.py`
(direct cgroup-file variant).

Conventions:
* Python float arithmetic is modelled by exact rationals (`ℚ`); the spec
  states all formulas over real numbers.
* The docker stats snapshot (a nest of Python dicts) is modelled by `PyVal`;
  the dictionary keys the program ever looks up form the enumerated type
  `Key`.
* A Python expression that may raise is modelled in `PyM := Except Unit`;
  a `try/except` block that falls back to a default collapses the exception
  at the point where the source catches it.
* Reading-and-parsing one accounting file is modelled by `ReadResult`
  (absent file / read-or-parse failure / parsed integer), and the content of
  the combined `cpu.max` file by `CpuMaxContent`.
-/

/-- Dictionary keys used by the stats snapshot structures in `main.py`. -/
inductive Key where
  | cpu_stats
  | precpu_stats
  | cpu_usage
  | total_usage
  | percpu_usage
  | system_cpu_usage
  | online_cpus
  | memory_stats
  | usage
  | limit
  deriving DecidableEq

/-- Python-like values occurring in a docker stats snapshot: `None`,
integers, strings, lists and dictionaries. -/
inductive PyVal where
  | none
  | int (n : ℤ)
  | str (s : String)
  | list (xs : List PyVal)
  | dict (es : List (Key × PyVal))

/-- Python truthiness (`bool(v)`). -/
def truthy : PyVal → Bool
  | .none => false
  | .int n => n != 0
  | .str s => s != ""
  | .list xs => !xs.isEmpty
  | .dict es => !es.isEmpty

/-- Computations that may raise a Python exception. -/
abbrev PyM := Except Unit

/-- `v.get(k, d)`: `AttributeError` unless `v` is a dict. -/
def pyGetD (v : PyVal) (k : Key) (d : PyVal) : PyM PyVal :=
  match v with
  | .dict es => .ok ((es.lookup k).getD d)
  | _ => .error ()

/-- `v.get(k)`: one-argument `dict.get`, default `None`. -/
def pyGet (v : PyVal) (k : Key) : PyM PyVal :=
  pyGetD v k .none

/-- `v[k]`: `KeyError` when the key is missing, `TypeError` when `v` is not
a dict. -/
def pyItem (v : PyVal) (k : Key) : PyM PyVal :=
  match v with
  | .dict es =>
    match es.lookup k with
    | some x => .ok x
    | Option.none => .error ()
  | _ => .error ()

/-- Using a value as a number in arithmetic: `TypeError` unless it is an
integer (the counters in a stats snapshot are integers). -/
def pyInt (v : PyVal) : PyM ℤ :=
  match v with
  | .int n => .ok n
  | _ => .error ()

/-- `len(v)`: `TypeError` on values without a length. -/
def pyLen (v : PyVal) : PyM ℤ :=
  match v with
  | .list xs => .ok (xs.length : ℤ)
  | .str s => .ok (s.length : ℤ)
  | .dict es => .ok (es.length : ℤ)
  | _ => .error ()

/-- Result of reading one accounting file and parsing it as an integer. -/
inductive ReadResult where
  | absent
  | failed
  | value (n : ℤ)
  deriving DecidableEq

/-- The read was not a parsed value (missing file or read/parse error). -/
def ReadResult.isErr (r : ReadResult) : Prop :=
  r = ReadResult.absent ∨ r = ReadResult.failed

/-- Content of the cgroup-v2 `cpu.max` file, as seen after
`f.read().strip().split()`. -/
inductive CpuMaxContent where
  | unreadable
  | maxToken
  | pair (quota period : ℤ)
  | malformed
  deriving DecidableEq

namespace Main

/-- Second half of `get_cpu_limit` (main.py lines 76-89): the cgroup-v2
attempt followed by the final `return 1.0`.  A `pair` with quota ≤ 0 skips
the inner `return`; a zero period raises `ZeroDivisionError`, which the
`except` swallows before the final `return 1.0`. -/
def get_cpu_limit_v2 : CpuMaxContent → ℚ
  | .pair q p =>
    if q > 0 then (if p ≠ 0 then (q : ℚ) / (p : ℚ) else 1) else 1
  | _ => 1

/-- `get_cpu_limit` (main.py lines 52-89).  The cgroup-v1 `try` block
returns `quota / period` only when both files parse and `quota > 0`; any
exception (missing file, parse failure, division by a zero period) and the
`quota ≤ 0` case fall through to the cgroup-v2 attempt. -/
def get_cpu_limit (v1_quota v1_period : ReadResult) (v2 : CpuMaxContent) : ℚ :=
  match v1_quota, v1_period with
  | .value q, .value p =>
    if q > 0 then
      (if p ≠ 0 then (q : ℚ) / (p : ℚ) else get_cpu_limit_v2 v2)
    else get_cpu_limit_v2 v2
  | _, _ => get_cpu_limit_v2 v2

/-- Body of `calculate_cpu_percent` (main.py lines 102-119): everything
inside the `try` block; an exception aborts the computation. -/
def cpu_percent_body (stats : PyVal) : PyM ℚ := do
  let cpu_stats ← pyGetD stats .cpu_stats (.dict [])
  let precpu_stats ← pyGetD stats .precpu_stats (.dict [])
  if !truthy precpu_stats then
    pure 0
  else
    let pre_cu ← pyGetD precpu_stats .cpu_usage (.dict [])
    let pre_tu ← pyGet pre_cu .total_usage
    if !truthy pre_tu then
      pure 0
    else
      let total_usage_current ← pyInt (← pyItem (← pyItem cpu_stats .cpu_usage) .total_usage)
      let total_usage_prev ← pyInt (← pyItem (← pyItem precpu_stats .cpu_usage) .total_usage)
      let delta_container := total_usage_current - total_usage_prev
      let system_cpu_current ← pyInt (← pyGetD cpu_stats .system_cpu_usage (.int 0))
      let system_cpu_prev ← pyInt (← pyGetD precpu_stats .system_cpu_usage (.int 0))
      let delta_system := system_cpu_current - system_cpu_prev
      if delta_system > 0 ∧ delta_container > 0 then
        let oc ← pyGet cpu_stats .online_cpus
        let online_cpus ←
          if truthy oc then pyInt oc
          else
            let percpu ← pyGetD (← pyItem cpu_stats .cpu_usage) .percpu_usage (.list [])
            let l ← pyLen percpu
            pure (if l ≠ 0 then l else 1)
        pure (((delta_container : ℚ) / (delta_system : ℚ)) * (online_cpus : ℚ) * 100)
      else
        pure 0

/-- `calculate_cpu_percent` (main.py lines 91-122): the `try/except`
returns 0.0 on any exception, and 0.0 is also the fall-through return
value. -/
def calculate_cpu_percent (stats : PyVal) : ℚ :=
  match cpu_percent_body stats with
  | .ok q => q
  | .error _ => 0

/-- Scaling of the raw percent by the detected limit
(main.py line 171). -/
def effective_cpu_percent (raw cpu_limit : ℚ) : ℚ :=
  if cpu_limit > 0 then raw / cpu_limit else raw

/-- The `online_cpus` value directly reported in the snapshot, when it is
an integer field of a dict-shaped `cpu_stats`. -/
def reported_online (stats : PyVal) : Option ℤ :=
  match stats with
  | .dict es =>
    match (es.lookup Key.cpu_stats).getD (.dict []) with
    | .dict cs =>
      match cs.lookup Key.online_cpus with
      | some (.int n) => some n
      | _ => Option.none
    | _ => Option.none
  | _ => Option.none

/-- First-tick snapshots: the previous (`precpu_stats`) part is absent, or
its total-usage field is missing or zero. -/
def first_tick : PyVal → Bool
  | .dict es =>
    match es.lookup Key.precpu_stats with
    | Option.none => true
    | some (.dict ps) =>
      match ps.lookup Key.cpu_usage with
      | Option.none => true
      | some (.dict us) =>
        match us.lookup Key.total_usage with
        | Option.none => true
        | some (.int n) => n == 0
        | some _ => false
      | some _ => false
    | some _ => false
  | _ => false

/-- A well-shaped runtime-stats snapshot: current/previous total usage,
current/previous system usage, optionally a reported `online_cpus` integer,
and a per-core usage list. -/
def mkCpuStats (cur sc : ℤ) (ocv : Option ℤ) (ps : List PyVal) : PyVal :=
  PyVal.dict
    ([(Key.cpu_usage,
       PyVal.dict [(Key.total_usage, PyVal.int cur), (Key.percpu_usage, PyVal.list ps)]),
      (Key.system_cpu_usage, PyVal.int sc)] ++
     (match ocv with
      | some n => [(Key.online_cpus, PyVal.int n)]
      | Option.none => []))

/-- A full well-shaped snapshot, with previous total usage `prev` and
previous system usage `sp`. -/
def mkStats (cur prev sc sp : ℤ) (ocv : Option ℤ) (ps : List PyVal) : PyVal :=
  PyVal.dict
    [(Key.cpu_stats, mkCpuStats cur sc ocv ps),
     (Key.precpu_stats,
      PyVal.dict
        [(Key.cpu_usage, PyVal.dict [(Key.total_usage, PyVal.int prev)]),
         (Key.system_cpu_usage, PyVal.int sp)])]

/-- The spec's runtime-stats formula (spec section 4.3):
`rawPercent = (containerDelta / systemDelta) * onlineCpus * 100` when both
deltas are positive, else 0. -/
def rawPercent_spec (containerDelta systemDelta onlineCpus : ℤ) : ℚ :=
  if systemDelta > 0 ∧ containerDelta > 0 then
    ((containerDelta : ℚ) / (systemDelta : ℚ)) * (onlineCpus : ℚ) * 100
  else 0

/-- The code's `or`-chain for `online_cpus`: the reported value when it is
a nonzero integer, else the per-core list length, else 1. -/
def online_cpus_fallback (reported : Option ℤ) (percpu_len : ℕ) : ℤ :=
  match reported with
  | some n => if n ≠ 0 then n else (if percpu_len ≠ 0 then (percpu_len : ℤ) else 1)
  | Option.none => if percpu_len ≠ 0 then (percpu_len : ℤ) else 1

/-- One sample logged by `monitor_own_container` (main.py lines 162-177). -/
structure SelfSample where
  cpu_usage : PyVal
  raw_cpu_percent : ℚ
  effective : ℚ
  mem_usage_mb : ℚ
  mem_limit_mb : ℚ

/-- Outcome of `container.stats(stream=False)` on one tick: a snapshot, or
an exception raised by the fetch. -/
inductive FetchResult where
  | ok (stats : PyVal)
  | fetchError

/-- Body of the `try` block of one tick of `monitor_own_container`
(main.py lines 157-177): unwrap a list result, extract the logged fields,
and compute the raw and effective CPU percentages. -/
def monitor_step_body (stats0 : PyVal) (cpu_limit : ℚ) : PyM SelfSample := do
  let stats ←
    match stats0 with
    | .list [] => (Except.error () : PyM PyVal)
    | .list (s :: _) => (Except.ok s : PyM PyVal)
    | s => (Except.ok s : PyM PyVal)
  let cpu_usage ← pyItem (← pyItem (← pyItem stats .cpu_stats) .cpu_usage) .total_usage
  let mem_usage_bytes ← pyInt (← pyItem (← pyItem stats .memory_stats) .usage)
  let mem_limit_bytes ← pyInt (← pyItem (← pyItem stats .memory_stats) .limit)
  let mem_usage_mb := (mem_usage_bytes : ℚ) / 1024 ^ 2
  let mem_limit_mb := (mem_limit_bytes : ℚ) / 1024 ^ 2
  let raw_cpu_percent := calculate_cpu_percent stats
  pure ⟨cpu_usage, raw_cpu_percent, effective_cpu_percent raw_cpu_percent cpu_limit,
        mem_usage_mb, mem_limit_mb⟩

/-- One tick of the sampling loop: a fetch error, or any exception inside
the `try` block, is logged and the tick emits no sample; the loop always
proceeds to `asyncio.sleep(1)` and the next tick. -/
def monitor_step (f : FetchResult) (cpu_limit : ℚ) : Option SelfSample :=
  match f with
  | .fetchError => Option.none
  | .ok stats =>
    match monitor_step_body stats cpu_limit with
    | .ok s => some s
    | .error _ => Option.none

/-- The sampling loop of `monitor_own_container` run over a finite prefix
of tick outcomes: one output entry per tick, in order. -/
def monitor_run (cpu_limit : ℚ) (fs : List FetchResult) : List (Option SelfSample) :=
  fs.map (fun f => monitor_step f cpu_limit)

end Main

namespace K8s

/-- Second half of `get_cpu_limit` (kubernaties_docker_local.py lines
79-97): the cgroup-v2 attempt followed by the final `return 1.0`.  The
literal token `max` returns 1.0; a parsed quota ≤ 0 returns 1.0; a zero
period raises `ZeroDivisionError`, caught before the final `return 1.0`;
a missing file or parse failure also ends at `return 1.0`. -/
def get_cpu_limit_v2 : CpuMaxContent → ℚ
  | .maxToken => 1
  | .pair q p =>
    if q ≤ 0 then 1 else (if p ≠ 0 then (q : ℚ) / (p : ℚ) else 1)
  | _ => 1

/-- `get_cpu_limit` (kubernaties_docker_local.py lines 52-97).  When both
cgroup-v1 files exist and parse, `quota == -1 or quota <= 0` returns 1.0
immediately; otherwise `quota / period` is returned (a zero period raises,
and the handler falls through to the cgroup-v2 attempt).  Missing or
unparsable v1 files also fall through to v2. -/
def get_cpu_limit (v1_quota v1_period : ReadResult) (v2 : CpuMaxContent) : ℚ :=
  match v1_quota, v1_period with
  | .value q, .value p =>
    if q = -1 ∨ q ≤ 0 then 1
    else if p ≠ 0 then (q : ℚ) / (p : ℚ)
    else get_cpu_limit_v2 v2
  | _, _ => get_cpu_limit_v2 v2

/-- `get_total_memory_in_bytes` (kubernaties_docker_local.py lines
159-174): the first candidate file that exists and parses wins; a file
containing the cgroup sentinel `max` fails integer parsing, and when no
candidate yields an integer the function returns the 1-byte sentinel. -/
def get_total_memory_in_bytes (v1 v2 : ReadResult) : ℤ :=
  match v1 with
  | .value n => n
  | _ =>
    match v2 with
    | .value n => n
    | _ => 1

/-- The values computed and logged by one tick of `monitor_resources`
(kubernaties_docker_local.py lines 200-224). -/
structure TickOutput where
  raw_cpu_percent : ℚ
  effective_cpu_percent : ℚ
  mem_usage_mb : ℚ
  total_memory_in_mb : ℚ
  memory_usage_percentage : ℚ

/-- One tick of `monitor_resources` (kubernaties_docker_local.py lines
195-224), as a function of the retained previous reading, the fresh
readings, and the resolved CPU limit. -/
def monitor_tick (cpu_limit : ℚ) (prev_cpu : ℤ) (prev_time : ℚ)
    (current_cpu : ℤ) (current_time : ℚ)
    (mem_usage : ℤ) (total_memory_in_bytes : ℤ) : TickOutput :=
  let delta_cpu : ℤ := current_cpu - prev_cpu
  let delta_time : ℚ := current_time - prev_time
  let cpu_time_used : ℚ := (delta_cpu : ℚ) / 1000000000
  let raw_cpu_fraction : ℚ := cpu_time_used / delta_time
  let raw_cpu_percent : ℚ := raw_cpu_fraction * 100
  let effective_cpu_percent : ℚ :=
    if cpu_limit > 0 then raw_cpu_percent / cpu_limit else raw_cpu_percent
  let mem_usage_mb : ℚ := (mem_usage : ℚ) / 1024 ^ 2
  let total_memory_in_mb : ℚ := (total_memory_in_bytes : ℚ) / 1024 ^ 2
  let memory_usage_percentage : ℚ := (mem_usage_mb / total_memory_in_mb) * 100
  ⟨raw_cpu_percent, effective_cpu_percent, mem_usage_mb, total_memory_in_mb,
   memory_usage_percentage⟩

end K8s

/-- Every period value a file read yields is non-negative (the kernel only
ever writes positive periods to the cgroup period files). -/
def periodNonneg (r : ReadResult) : Prop :=
  ∀ n : ℤ, r = ReadResult.value n → 0 ≤ n

/-- The period token of a parsed `cpu.max` pair is non-negative. -/
def v2PeriodNonneg (c : CpuMaxContent) : Prop :=
  ∀ q p : ℤ, c = CpuMaxContent.pair q p → 0 ≤ p

/- ------------------------------------------------------------------ -/
/- Helper lemmas                                                       -/
/- ------------------------------------------------------------------ -/

@[simp] theorem pym_ok_bind {α β : Type} (a : α) (f : α → PyM β) :
    ((Except.ok a : PyM α) >>= f) = f a := rfl

@[simp] theorem pym_error_bind {α β : Type} (u : Unit) (f : α → PyM β) :
    ((Except.error u : PyM α) >>= f) = Except.error u := rfl

@[simp] theorem pym_pure {α : Type} (a : α) :
    (pure a : PyM α) = Except.ok a := rfl

@[simp] theorem key_beq_pre_cs : (Key.precpu_stats == Key.cpu_stats) = false := rfl

@[simp] theorem key_beq_sys_cu : (Key.system_cpu_usage == Key.cpu_usage) = false := rfl

@[simp] theorem key_beq_oc_cu : (Key.online_cpus == Key.cpu_usage) = false := rfl

@[simp] theorem key_beq_oc_sys : (Key.online_cpus == Key.system_cpu_usage) = false := rfl

@[simp] theorem key_beq_pc_tu : (Key.percpu_usage == Key.total_usage) = false := rfl

/- ------------------------------------------------------------------ -/
/- Claim theorems                                                      -/
/- ------------------------------------------------------------------ -/

/-- C2: for the direct-file variant, one tick computes
`cpuSecondsUsed = (current - previous) / 1e9`,
`rawPercent = cpuSecondsUsed / elapsedSeconds * 100` with
`elapsedSeconds = current_time - prev_time`, and
`effectivePercent = rawPercent / entitlement` when the entitlement is
positive, else `rawPercent`; in particular entitlement 0.25 with a
250,000,000 ns delta over 1 s yields raw 25.0 and effective 100.0. -/
theorem C2_direct_file_tick_formula :
    (∀ (prev_cpu current_cpu : ℤ) (prev_time current_time entitlement : ℚ)
        (mem_usage total_memory : ℤ),
      (K8s.monitor_tick entitlement prev_cpu prev_time current_cpu current_time
          mem_usage total_memory).raw_cpu_percent
        = ((current_cpu - prev_cpu : ℤ) : ℚ) / 1000000000
            / (current_time - prev_time) * 100
      ∧ (K8s.monitor_tick entitlement prev_cpu prev_time current_cpu current_time
            mem_usage total_memory).effective_cpu_percent
        = (if entitlement > 0 then
            (K8s.monitor_tick entitlement prev_cpu prev_time current_cpu current_time
                mem_usage total_memory).raw_cpu_percent / entitlement
          else
            (K8s.monitor_tick entitlement prev_cpu prev_time current_cpu current_time
                mem_usage total_memory).raw_cpu_percent))
    ∧ (K8s.monitor_tick (1/4) 0 0 250000000 1 0 1).raw_cpu_percent = 25
    ∧ (K8s.monitor_tick (1/4) 0 0 250000000 1 0 1).effective_cpu_percent = 100 := by
  refine ⟨fun p c pt ct e mu tm => ⟨rfl, rfl⟩,
    by norm_num [K8s.monitor_tick], by norm_num [K8s.monitor_tick]⟩

/-- C6: when no memory-limit file can be read (or the file holds the
unparsable cgroup sentinel `max`), the code substitutes the 1-byte
sentinel and still divides by it: with 500 MB in use it reports a memory
usage percentage of 52,428,800,000 % instead of omitting the value. -/
theorem C6_sentinel_divide :
    K8s.get_total_memory_in_bytes ReadResult.absent ReadResult.failed = 1
    ∧ (K8s.monitor_tick 1 0 0 0 1 524288000
        (K8s.get_total_memory_in_bytes ReadResult.absent ReadResult.failed)).memory_usage_percentage
      = 52428800000 := by
  exact ⟨rfl, by norm_num [K8s.monitor_tick, K8s.get_total_memory_in_bytes]⟩

/-- C9: a tick whose stats fetch raises is skipped — it emits no sample —
and the loop processes the remaining ticks exactly as it would have;
moreover every tick of the input produces exactly one (optional) output,
so an error never terminates the sampling loop. -/
theorem C9_loop_resilience :
    ∀ (cpu_limit : ℚ) (pre post : List Main.FetchResult),
      Main.monitor_run cpu_limit (pre ++ Main.FetchResult.fetchError :: post)
        = Main.monitor_run cpu_limit pre
            ++ Option.none :: Main.monitor_run cpu_limit post
      ∧ ∀ fs : List Main.FetchResult,
          (Main.monitor_run cpu_limit fs).length = fs.length := by
  intro cpu_limit pre post
  constructor
  · simp [Main.monitor_run, Main.monitor_step]
  · intro fs
    simp [Main.monitor_run]

/-- C5: memory accounting in the direct-file tick: used and limit are
converted to MB by dividing by 1024², the percentage is
`usedMb / limitMb * 100`, equal non-zero used and limit yield exactly 100,
and zero used yields exactly 0. -/
theorem C5_memory_accounting (mem_usage total_memory : ℤ)
    (hpos : 0 < total_memory) :
    ∀ (cpu_limit : ℚ) (prev_cpu : ℤ) (prev_time : ℚ)
      (current_cpu : ℤ) (current_time : ℚ),
      (K8s.monitor_tick cpu_limit prev_cpu prev_time current_cpu current_time
          mem_usage total_memory).mem_usage_mb = (mem_usage : ℚ) / (1024 * 1024)
      ∧ (K8s.monitor_tick cpu_limit prev_cpu prev_time current_cpu current_time
          mem_usage total_memory).total_memory_in_mb
        = (total_memory : ℚ) / (1024 * 1024)
      ∧ (K8s.monitor_tick cpu_limit prev_cpu prev_time current_cpu current_time
          mem_usage total_memory).memory_usage_percentage
        = (mem_usage : ℚ) / (1024 * 1024) / ((total_memory : ℚ) / (1024 * 1024)) * 100
      ∧ (mem_usage = total_memory →
          (K8s.monitor_tick cpu_limit prev_cpu prev_time current_cpu current_time
              mem_usage total_memory).memory_usage_percentage = 100)
      ∧ (mem_usage = 0 →
          (K8s.monitor_tick cpu_limit prev_cpu prev_time current_cpu current_time
              mem_usage total_memory).memory_usage_percentage = 0) := by
  intro cpu_limit prev_cpu prev_time current_cpu current_time
  have ht : ((total_memory : ℚ)) ≠ 0 := by
    exact_mod_cast hpos.ne'
  refine ⟨by norm_num [K8s.monitor_tick], by norm_num [K8s.monitor_tick],
          by norm_num [K8s.monitor_tick], ?_, ?_⟩
  · intro h
    subst h
    show ((mem_usage : ℚ) / 1024 ^ 2 / ((mem_usage : ℚ) / 1024 ^ 2)) * 100 = 100
    rw [div_self (div_ne_zero ht (by norm_num))]
    norm_num
  · intro h
    subst h
    show (((0 : ℤ) : ℚ) / 1024 ^ 2 / ((total_memory : ℚ) / 1024 ^ 2)) * 100 = 0
    norm_num

/-- Witness for C5 at used = limit = 1 MB and at used = 0. -/
theorem C5_witness :
    (K8s.monitor_tick 1 0 0 0 1 1048576 1048576).memory_usage_percentage = 100
    ∧ (K8s.monitor_tick 1 0 0 0 1 0 1048576).memory_usage_percentage = 0 := by
  constructor
  · exact (C5_memory_accounting 1048576 1048576 (by norm_num) 1 0 0 0 1).2.2.2.1 rfl
  · exact (C5_memory_accounting 0 1048576 (by norm_num) 1 0 0 0 1).2.2.2.2 rfl

/-- When either cgroup-v1 read is an error state, main.py's resolver
reduces to its cgroup-v2 attempt. -/
theorem hmainErr : ∀ (v1q v1p : ReadResult), (v1q.isErr ∨ v1p.isErr) →
    ∀ v2, Main.get_cpu_limit v1q v1p v2 = Main.get_cpu_limit_v2 v2 := by
  intro v1q v1p h v2
  rcases h with (rfl | rfl) | (rfl | rfl)
  · cases v1p <;> rfl
  · cases v1p <;> rfl
  · cases v1q <;> rfl
  · cases v1q <;> rfl

/-- When either cgroup-v1 read is an error state, the kubernaties
resolver reduces to its cgroup-v2 attempt. -/
theorem hk8sErr : ∀ (v1q v1p : ReadResult), (v1q.isErr ∨ v1p.isErr) →
    ∀ v2, K8s.get_cpu_limit v1q v1p v2 = K8s.get_cpu_limit_v2 v2 := by
  intro v1q v1p h v2
  rcases h with (rfl | rfl) | (rfl | rfl)
  · cases v1p <;> rfl
  · cases v1p <;> rfl
  · cases v1q <;> rfl
  · cases v1q <;> rfl

/-- Counterexample to C3 as stated: interface A answers first with the
sentinel quota −1 (cgroup-v1 "unlimited"), so the claim requires 1.0, but
`main.py`'s resolver falls through to interface B and returns its ratio
1/2 instead. -/
theorem C3_counterexample :
    Main.get_cpu_limit (ReadResult.value (-1)) (ReadResult.value 100000)
        (CpuMaxContent.pair 50000 100000) = 1/2
    ∧ ((1 : ℚ)/2) ≠ 1 := by
  constructor
  · norm_num [Main.get_cpu_limit, Main.get_cpu_limit_v2]
  · norm_num

/-- C3 (amended): both resolvers return `quota / period` for every parsed
quota > 0 and period > 0 at the first answering interface; the
kubernaties variant returns 1.0 when the first answering interface reports
the sentinel or a quota ≤ 0; the main.py variant instead treats a
non-positive interface-A quota as "interface A unavailable" and falls
through to interface B (so it returns 1.0 only when B yields no positive
quota/period pair). -/
theorem C3_entitlement_resolution :
    (∀ (q p : ℤ) (v2 : CpuMaxContent), 0 < q → 0 < p →
        Main.get_cpu_limit (ReadResult.value q) (ReadResult.value p) v2 = (q : ℚ) / (p : ℚ)
        ∧ K8s.get_cpu_limit (ReadResult.value q) (ReadResult.value p) v2 = (q : ℚ) / (p : ℚ))
    ∧ (∀ (v1q v1p : ReadResult) (q p : ℤ),
        (v1q.isErr ∨ v1p.isErr) → 0 < q → 0 < p →
        Main.get_cpu_limit v1q v1p (CpuMaxContent.pair q p) = (q : ℚ) / (p : ℚ)
        ∧ K8s.get_cpu_limit v1q v1p (CpuMaxContent.pair q p) = (q : ℚ) / (p : ℚ))
    ∧ (∀ (q p : ℤ) (v2 : CpuMaxContent), q ≤ 0 →
        K8s.get_cpu_limit (ReadResult.value q) (ReadResult.value p) v2 = 1)
    ∧ (∀ (v1q v1p : ReadResult), (v1q.isErr ∨ v1p.isErr) →
        Main.get_cpu_limit v1q v1p CpuMaxContent.maxToken = 1
        ∧ K8s.get_cpu_limit v1q v1p CpuMaxContent.maxToken = 1
        ∧ ∀ q p : ℤ, q ≤ 0 →
            Main.get_cpu_limit v1q v1p (CpuMaxContent.pair q p) = 1
            ∧ K8s.get_cpu_limit v1q v1p (CpuMaxContent.pair q p) = 1)
    ∧ (∀ (q p : ℤ) (v2 : CpuMaxContent), q ≤ 0 →
        Main.get_cpu_limit (ReadResult.value q) (ReadResult.value p) v2
          = Main.get_cpu_limit_v2 v2) := by
  refine ⟨?_, ?_, ?_, ?_, ?_⟩
  · intro q p v2 hq hp
    constructor
    · show (if q > 0 then (if p ≠ 0 then (q : ℚ) / (p : ℚ) else Main.get_cpu_limit_v2 v2)
            else Main.get_cpu_limit_v2 v2) = (q : ℚ) / (p : ℚ)
      rw [if_pos hq, if_pos hp.ne']
    · show (if q = -1 ∨ q ≤ 0 then 1
            else if p ≠ 0 then (q : ℚ) / (p : ℚ) else K8s.get_cpu_limit_v2 v2)
          = (q : ℚ) / (p : ℚ)
      rw [if_neg (by omega : ¬(q = -1 ∨ q ≤ 0)), if_pos hp.ne']
  · intro v1q v1p q p herr hq hp
    constructor
    · rw [hmainErr _ _ herr]
      show (if q > 0 then (if p ≠ 0 then (q : ℚ) / (p : ℚ) else 1) else 1)
          = (q : ℚ) / (p : ℚ)
      rw [if_pos hq, if_pos hp.ne']
    · rw [hk8sErr _ _ herr]
      show (if q ≤ 0 then 1 else if p ≠ 0 then (q : ℚ) / (p : ℚ) else 1)
          = (q : ℚ) / (p : ℚ)
      rw [if_neg (by omega : ¬ q ≤ 0), if_pos hp.ne']
  · intro q p v2 hq
    show (if q = -1 ∨ q ≤ 0 then 1
          else if p ≠ 0 then (q : ℚ) / (p : ℚ) else K8s.get_cpu_limit_v2 v2) = 1
    rw [if_pos (Or.inr hq)]
  · intro v1q v1p herr
    refine ⟨?_, ?_, ?_⟩
    · exact (hmainErr _ _ herr _).trans rfl
    · exact (hk8sErr _ _ herr _).trans rfl
    · intro q p hq
      constructor
      · rw [hmainErr _ _ herr]
        show (if q > 0 then (if p ≠ 0 then (q : ℚ) / (p : ℚ) else 1) else 1) = 1
        rw [if_neg (by omega : ¬ q > 0)]
      · rw [hk8sErr _ _ herr]
        show (if q ≤ 0 then 1 else if p ≠ 0 then (q : ℚ) / (p : ℚ) else 1) = 1
        rw [if_pos hq]
  · intro q p v2 hq
    show (if q > 0 then (if p ≠ 0 then (q : ℚ) / (p : ℚ) else Main.get_cpu_limit_v2 v2)
          else Main.get_cpu_limit_v2 v2) = Main.get_cpu_limit_v2 v2
    rw [if_neg (by omega : ¬ q > 0)]

/-- Witness for C3 (amended): quota 25000 and period 100000 at interface A
resolve to 1/4 in both variants. -/
theorem C3_witness :
    Main.get_cpu_limit (ReadResult.value 25000) (ReadResult.value 100000)
        CpuMaxContent.unreadable = 1/4
    ∧ K8s.get_cpu_limit (ReadResult.value 25000) (ReadResult.value 100000)
        CpuMaxContent.unreadable = 1/4 := by
  have h := C3_entitlement_resolution.1 25000 100000 CpuMaxContent.unreadable
    (by norm_num) (by norm_num)
  constructor
  · rw [h.1]; norm_num
  · rw [h.2]; norm_num

/-- C7: the entitlement resolvers are total by construction (every
exception the source can raise is caught inside them and modelled as a
`ReadResult`/`CpuMaxContent` error state), and whenever a read or parse
error leaves no interface with a parsed quota, both variants fall back to
1.0. -/
theorem C7_resolver_total_fallback :
    ∀ (v1q v1p : ReadResult) (v2 : CpuMaxContent),
      (v1q.isErr ∨ v1p.isErr) →
      (v2 = CpuMaxContent.unreadable ∨ v2 = CpuMaxContent.malformed
        ∨ v2 = CpuMaxContent.maxToken) →
      Main.get_cpu_limit v1q v1p v2 = 1 ∧ K8s.get_cpu_limit v1q v1p v2 = 1 := by
  intro v1q v1p v2 h1 h2
  rcases h2 with rfl | rfl | rfl <;>
    exact ⟨(hmainErr _ _ h1 _).trans rfl, (hk8sErr _ _ h1 _).trans rfl⟩

/-- Witness for C7, matching end-to-end scenario 4: interface A raises a
permission error and interface B reads "max 100000"; both resolvers
return 1.0 without raising. -/
theorem C7_witness :
    Main.get_cpu_limit ReadResult.failed (ReadResult.value 100000)
        CpuMaxContent.maxToken = 1
    ∧ K8s.get_cpu_limit ReadResult.failed (ReadResult.value 100000)
        CpuMaxContent.maxToken = 1 :=
  C7_resolver_total_fallback ReadResult.failed (ReadResult.value 100000)
    CpuMaxContent.maxToken (Or.inl (Or.inr rfl)) (Or.inr (Or.inr rfl))

/-- Counterexample to C8 as stated: with a quota file holding 50000 and a
period file holding −100000 (a state of the accounting files), main.py's
resolver returns −1/2, which is not strictly positive. -/
theorem C8_counterexample :
    Main.get_cpu_limit (ReadResult.value 50000) (ReadResult.value (-100000))
        CpuMaxContent.unreadable = -(1/2)
    ∧ ¬ (0 < (-(1/2) : ℚ)) := by
  constructor
  · norm_num [Main.get_cpu_limit, Main.get_cpu_limit_v2]
  · norm_num

/-- C8 (amended): for every state of the accounting files in which no
parsed period value is negative, both resolvers return a strictly
positive entitlement (any quota ≤ 0 is treated as unconstrained). -/
theorem C8_entitlement_positive :
    ∀ (v1q v1p : ReadResult) (v2 : CpuMaxContent),
      periodNonneg v1p → v2PeriodNonneg v2 →
      0 < Main.get_cpu_limit v1q v1p v2 ∧ 0 < K8s.get_cpu_limit v1q v1p v2 := by
  intro v1q v1p v2 hp hv2
  have hv2main : 0 < Main.get_cpu_limit_v2 v2 := by
    cases v2 with
    | pair q p =>
      have hp' : (0 : ℤ) ≤ p := hv2 q p rfl
      by_cases hq : q > 0
      · by_cases hpz : p = (0 : ℤ)
        · simp [Main.get_cpu_limit_v2, hq, hpz]
        · have : (0 : ℤ) < p := lt_of_le_of_ne hp' (Ne.symm hpz)
          simp only [Main.get_cpu_limit_v2, if_pos hq, if_pos hpz]
          exact div_pos (by exact_mod_cast hq) (by exact_mod_cast this)
      · simp [Main.get_cpu_limit_v2, hq]
    | unreadable => norm_num [Main.get_cpu_limit_v2]
    | maxToken => norm_num [Main.get_cpu_limit_v2]
    | malformed => norm_num [Main.get_cpu_limit_v2]
  have hv2k8s : 0 < K8s.get_cpu_limit_v2 v2 := by
    cases v2 with
    | pair q p =>
      have hp' : (0 : ℤ) ≤ p := hv2 q p rfl
      by_cases hq : q ≤ 0
      · simp [K8s.get_cpu_limit_v2, hq]
      · by_cases hpz : p = (0 : ℤ)
        · simp [K8s.get_cpu_limit_v2, hq, hpz]
        · have : (0 : ℤ) < p := lt_of_le_of_ne hp' (Ne.symm hpz)
          simp only [K8s.get_cpu_limit_v2, if_neg hq, if_pos hpz]
          exact div_pos (by exact_mod_cast not_le.mp hq) (by exact_mod_cast this)
    | unreadable => norm_num [K8s.get_cpu_limit_v2]
    | maxToken => norm_num [K8s.get_cpu_limit_v2]
    | malformed => norm_num [K8s.get_cpu_limit_v2]
  constructor
  · cases v1q with
    | value q =>
      cases v1p with
      | value p =>
        have hp' : (0 : ℤ) ≤ p := hp p rfl
        by_cases hq : q > 0
        · by_cases hpz : p = (0 : ℤ)
          · simpa [Main.get_cpu_limit, hq, hpz] using hv2main
          · have hppos : (0 : ℤ) < p := lt_of_le_of_ne hp' (Ne.symm hpz)
            simp only [Main.get_cpu_limit, if_pos hq, if_pos hpz]
            exact div_pos (by exact_mod_cast hq) (by exact_mod_cast hppos)
        · simpa [Main.get_cpu_limit, hq] using hv2main
      | absent => exact hv2main
      | failed => exact hv2main
    | absent => cases v1p <;> exact hv2main
    | failed => cases v1p <;> exact hv2main
  · cases v1q with
    | value q =>
      cases v1p with
      | value p =>
        have hp' : (0 : ℤ) ≤ p := hp p rfl
        by_cases hq : q = -1 ∨ q ≤ 0
        · simp [K8s.get_cpu_limit, hq]
        · by_cases hpz : p = (0 : ℤ)
          · simpa [K8s.get_cpu_limit, hq, hpz] using hv2k8s
          · have hppos : (0 : ℤ) < p := lt_of_le_of_ne hp' (Ne.symm hpz)
            have hqpos : (0 : ℤ) < q := by omega
            simp only [K8s.get_cpu_limit, if_neg hq, if_pos hpz]
            exact div_pos (by exact_mod_cast hqpos) (by exact_mod_cast hppos)
      | absent => exact hv2k8s
      | failed => exact hv2k8s
    | absent => cases v1p <;> exact hv2k8s
    | failed => cases v1p <;> exact hv2k8s

/-- Witness for C8 (amended) at quota 25000, period 100000. -/
theorem C8_witness :
    0 < Main.get_cpu_limit (ReadResult.value 25000) (ReadResult.value 100000)
          CpuMaxContent.unreadable
    ∧ 0 < K8s.get_cpu_limit (ReadResult.value 25000) (ReadResult.value 100000)
          CpuMaxContent.unreadable := by
  refine C8_entitlement_positive _ _ _ ?_ ?_
  · intro n h
    injection h with h'
    omega
  · intro q p h
    cases h

/-- Counterexample to C1 as stated: a snapshot whose previous total usage
is 0 with current total usage 5, previous system usage 0 and current
system usage 10 has containerDelta = 5 > 0 and systemDelta = 10 > 0, so
the claim requires the formula value (50), but `calculate_cpu_percent`
returns 0 because the first-tick guard fires on the zero previous
total-usage field. -/
theorem C1_counterexample :
    Main.calculate_cpu_percent (Main.mkStats 5 0 10 0 Option.none [])
      ≠ Main.rawPercent_spec 5 10 (Main.online_cpus_fallback Option.none 0) := by
  have h1 : Main.calculate_cpu_percent (Main.mkStats 5 0 10 0 Option.none []) = 0 := rfl
  have h2 : Main.rawPercent_spec 5 10 (Main.online_cpus_fallback Option.none 0) = 50 := by
    norm_num [Main.rawPercent_spec, Main.online_cpus_fallback]
  rw [h1, h2]
  norm_num

/-- C4: on a snapshot whose previous part is absent, or whose previous
total-usage field is missing or zero, the CPU calculation returns 0.0,
and the effective percentage derived from it is 0.0 for every limit. -/
theorem C4_first_tick :
    ∀ (stats : PyVal) (cpu_limit : ℚ), Main.first_tick stats = true →
      Main.calculate_cpu_percent stats = 0
      ∧ Main.effective_cpu_percent (Main.calculate_cpu_percent stats) cpu_limit = 0 := by
  intro stats cpu_limit h
  have hc : Main.calculate_cpu_percent stats = 0 := by
    cases stats with
    | dict es =>
      rcases he : es.lookup Key.precpu_stats with _ | v
      · simp [Main.calculate_cpu_percent, Main.cpu_percent_body, pyGetD, he, truthy]
      · cases v with
        | dict ps =>
          rcases hcu : ps.lookup Key.cpu_usage with _ | u
          · cases ps with
            | nil =>
              simp [Main.calculate_cpu_percent, Main.cpu_percent_body, pyGetD, he, truthy]
            | cons a tl =>
              simp [Main.calculate_cpu_percent, Main.cpu_percent_body, pyGetD, pyGet,
                    he, hcu, truthy]
          · cases u with
            | dict us =>
              rcases htu : us.lookup Key.total_usage with _ | t
              · cases ps with
                | nil => simp at hcu
                | cons a tl =>
                  simp [Main.calculate_cpu_percent, Main.cpu_percent_body, pyGetD, pyGet,
                        he, hcu, htu, truthy]
              · simp only [Main.first_tick, he, hcu, htu] at h
                cases t with
                | int n =>
                  have hn : n = 0 := by simpa using h
                  subst hn
                  cases ps with
                  | nil => simp at hcu
                  | cons a tl =>
                    simp [Main.calculate_cpu_percent, Main.cpu_percent_body, pyGetD, pyGet,
                          he, hcu, htu, truthy]
                | none => simp at h
                | str s => simp at h
                | list xs => simp at h
                | dict es2 => simp at h
            | none => simp [Main.first_tick, he, hcu] at h
            | int n => simp [Main.first_tick, he, hcu] at h
            | str s => simp [Main.first_tick, he, hcu] at h
            | list xs => simp [Main.first_tick, he, hcu] at h
        | none => simp [Main.first_tick, he] at h
        | int n => simp [Main.first_tick, he] at h
        | str s => simp [Main.first_tick, he] at h
        | list xs => simp [Main.first_tick, he] at h
    | none => simp [Main.first_tick] at h
    | int n => simp [Main.first_tick] at h
    | str s => simp [Main.first_tick] at h
    | list xs => simp [Main.first_tick] at h
  refine ⟨hc, ?_⟩
  rw [hc]
  simp [Main.effective_cpu_percent]

/-- Witness for C4 at a snapshot with no previous part at all. -/
theorem C4_witness :
    Main.calculate_cpu_percent (PyVal.dict []) = 0
    ∧ Main.effective_cpu_percent (Main.calculate_cpu_percent (PyVal.dict [])) 1 = 0 :=
  C4_first_tick (PyVal.dict []) 1 rfl

set_option maxHeartbeats 1600000 in
/-- C1 (amended): on a well-shaped snapshot whose previous total-usage
field is present and nonzero, `calculate_cpu_percent` returns exactly the
spec formula `(containerDelta / systemDelta) * onlineCpus * 100` when both
deltas are positive and 0 otherwise, with `onlineCpus` the reported value
when it is a nonzero integer, else the per-core list length, else 1. -/
theorem C1_runtime_cpu_formula :
    ∀ (cur prev sc sp : ℤ) (ocv : Option ℤ) (ps : List PyVal),
      prev ≠ 0 →
      Main.calculate_cpu_percent (Main.mkStats cur prev sc sp ocv ps)
        = Main.rawPercent_spec (cur - prev) (sc - sp)
            (Main.online_cpus_fallback ocv ps.length) := by
  intro cur prev sc sp ocv ps hprev
  by_cases hcond : sc - sp > 0 ∧ cur - prev > 0
  · have h1 : sp < sc := by omega
    have h2 : prev < cur := by omega
    cases ocv with
    | none =>
      by_cases hl : ps.length = 0
      · simp [Main.calculate_cpu_percent, Main.cpu_percent_body, Main.mkStats,
              Main.mkCpuStats, Main.rawPercent_spec, Main.online_cpus_fallback,
              pyGetD, pyGet, pyItem, pyInt, pyLen, truthy, List.lookup,
              hprev, hcond, h1, h2, hl]
      · simp [Main.calculate_cpu_percent, Main.cpu_percent_body, Main.mkStats,
              Main.mkCpuStats, Main.rawPercent_spec, Main.online_cpus_fallback,
              pyGetD, pyGet, pyItem, pyInt, pyLen, truthy, List.lookup,
              hprev, hcond, h1, h2, hl]
    | some n =>
      by_cases hn : n = 0
      · by_cases hl : ps.length = 0
        · simp [Main.calculate_cpu_percent, Main.cpu_percent_body, Main.mkStats,
                Main.mkCpuStats, Main.rawPercent_spec, Main.online_cpus_fallback,
                pyGetD, pyGet, pyItem, pyInt, pyLen, truthy, List.lookup,
                hprev, hcond, h1, h2, hn, hl]
        · simp [Main.calculate_cpu_percent, Main.cpu_percent_body, Main.mkStats,
                Main.mkCpuStats, Main.rawPercent_spec, Main.online_cpus_fallback,
                pyGetD, pyGet, pyItem, pyInt, pyLen, truthy, List.lookup,
                hprev, hcond, h1, h2, hn, hl]
      · simp [Main.calculate_cpu_percent, Main.cpu_percent_body, Main.mkStats,
              Main.mkCpuStats, Main.rawPercent_spec, Main.online_cpus_fallback,
              pyGetD, pyGet, pyItem, pyInt, pyLen, truthy, List.lookup,
              hprev, hcond, h1, h2, hn]
  · have hC : ¬(sp < sc ∧ prev < cur) := by omega
    cases ocv with
    | none =>
      by_cases hl : ps.length = 0
      · simp [Main.calculate_cpu_percent, Main.cpu_percent_body, Main.mkStats,
              Main.mkCpuStats, Main.rawPercent_spec, Main.online_cpus_fallback,
              pyGetD, pyGet, pyItem, pyInt, pyLen, truthy, List.lookup,
              hprev, hcond, hC, hl]
      · simp [Main.calculate_cpu_percent, Main.cpu_percent_body, Main.mkStats,
              Main.mkCpuStats, Main.rawPercent_spec, Main.online_cpus_fallback,
              pyGetD, pyGet, pyItem, pyInt, pyLen, truthy, List.lookup,
              hprev, hcond, hC, hl]
    | some n =>
      by_cases hn : n = 0
      · by_cases hl : ps.length = 0
        · simp [Main.calculate_cpu_percent, Main.cpu_percent_body, Main.mkStats,
                Main.mkCpuStats, Main.rawPercent_spec, Main.online_cpus_fallback,
                pyGetD, pyGet, pyItem, pyInt, pyLen, truthy, List.lookup,
                hprev, hcond, hC, hn, hl]
        · simp [Main.calculate_cpu_percent, Main.cpu_percent_body, Main.mkStats,
                Main.mkCpuStats, Main.rawPercent_spec, Main.online_cpus_fallback,
                pyGetD, pyGet, pyItem, pyInt, pyLen, truthy, List.lookup,
                hprev, hcond, hC, hn, hl]
      · simp [Main.calculate_cpu_percent, Main.cpu_percent_body, Main.mkStats,
              Main.mkCpuStats, Main.rawPercent_spec, Main.online_cpus_fallback,
              pyGetD, pyGet, pyItem, pyInt, pyLen, truthy, List.lookup,
              hprev, hcond, hC, hn]

/-- A successful `len()` is non-negative. -/
theorem pyLen_nonneg {v : PyVal} {l : ℤ} (h : pyLen v = Except.ok l) : 0 ≤ l := by
  cases v <;> simp [pyLen] at h <;> omega

/-- Chaining the successful lookups that the code performs for
`online_cpus` recovers the directly reported integer value. -/
theorem reported_online_of {stats cs oc : PyVal} {n : ℤ}
    (hcs : pyGetD stats Key.cpu_stats (PyVal.dict []) = Except.ok cs)
    (hoc : pyGet cs Key.online_cpus = Except.ok oc)
    (hint : pyInt oc = Except.ok n) :
    Main.reported_online stats = some n := by
  cases stats with
  | dict es =>
    simp only [pyGetD, Except.ok.injEq] at hcs
    cases cs with
    | dict csl =>
      simp only [pyGet, pyGetD, Except.ok.injEq] at hoc
      cases oc with
      | int m =>
        simp only [pyInt, Except.ok.injEq] at hint
        subst hint
        rcases hl : csl.lookup Key.online_cpus with _ | w
        · rw [hl] at hoc
          simp at hoc
        · rw [hl] at hoc
          simp only [Option.getD_some] at hoc
          subst hoc
          simp only [Main.reported_online, hcs, hl]
      | none => simp [pyInt] at hint
      | str s => simp [pyInt] at hint
      | list xs => simp [pyInt] at hint
      | dict d => simp [pyInt] at hint
    | none => simp [pyGet, pyGetD] at hoc
    | int m => simp [pyGet, pyGetD] at hoc
    | str s => simp [pyGet, pyGetD] at hoc
    | list xs => simp [pyGet, pyGetD] at hoc
  | none => simp [pyGetD] at hcs
  | int m => simp [pyGetD] at hcs
  | str s => simp [pyGetD] at hcs
  | list xs => simp [pyGetD] at hcs

/-- The runtime-stats formula value is non-negative when both deltas are
positive and the CPU count is non-negative. -/
theorem formula_nonneg {ds dc n : ℤ} (hds : ds > 0) (hdc : dc > 0) (hn : 0 ≤ n) :
    (0 : ℚ) ≤ (dc : ℚ) / (ds : ℚ) * (n : ℚ) * 100 := by
  have h1 : (0 : ℚ) ≤ (dc : ℚ) := by exact_mod_cast hdc.le
  have h2 : (0 : ℚ) ≤ (ds : ℚ) := by exact_mod_cast hds.le
  have h3 : (0 : ℚ) ≤ (n : ℚ) := by exact_mod_cast hn
  exact mul_nonneg (mul_nonneg (div_nonneg h1 h2) h3) (by norm_num)

/-- A successful run of the `try` body of `calculate_cpu_percent` yields a
non-negative value whenever any directly reported `online_cpus` integer in
the snapshot is non-negative. -/
theorem cpu_percent_body_ok_nonneg (stats : PyVal)
    (h : ∀ n : ℤ, Main.reported_online stats = some n → 0 ≤ n)
    (q : ℚ) (hq : Main.cpu_percent_body stats = Except.ok q) : 0 ≤ q := by
  simp only [Main.cpu_percent_body] at hq
  cases h1 : pyGetD stats Key.cpu_stats (PyVal.dict []) with
  | error u => rw [h1] at hq; simp at hq
  | ok cs =>
  rw [h1] at hq
  simp only [pym_ok_bind] at hq
  cases h2 : pyGetD stats Key.precpu_stats (PyVal.dict []) with
  | error u => rw [h2] at hq; simp at hq
  | ok pre =>
  rw [h2] at hq
  simp only [pym_ok_bind] at hq
  by_cases ht1 : (!truthy pre) = true
  · rw [if_pos ht1] at hq
    simp only [pym_pure, Except.ok.injEq] at hq
    subst hq
    norm_num
  · rw [if_neg ht1] at hq
    cases h3 : pyGetD pre Key.cpu_usage (PyVal.dict []) with
    | error u => rw [h3] at hq; simp at hq
    | ok pre_cu =>
    rw [h3] at hq
    simp only [pym_ok_bind] at hq
    cases h4 : pyGet pre_cu Key.total_usage with
    | error u => rw [h4] at hq; simp at hq
    | ok pre_tu =>
    rw [h4] at hq
    simp only [pym_ok_bind] at hq
    by_cases ht2 : (!truthy pre_tu) = true
    · rw [if_pos ht2] at hq
      simp only [pym_pure, Except.ok.injEq] at hq
      subst hq
      norm_num
    · rw [if_neg ht2] at hq
      cases h5 : pyItem cs Key.cpu_usage with
      | error u => rw [h5] at hq; simp at hq
      | ok cu =>
      rw [h5] at hq
      simp only [pym_ok_bind] at hq
      cases h6 : pyItem cu Key.total_usage with
      | error u => rw [h6] at hq; simp at hq
      | ok tuv =>
      rw [h6] at hq
      simp only [pym_ok_bind] at hq
      cases h7 : pyInt tuv with
      | error u => rw [h7] at hq; simp at hq
      | ok tc =>
      rw [h7] at hq
      simp only [pym_ok_bind] at hq
      cases h8 : pyItem pre Key.cpu_usage with
      | error u => rw [h8] at hq; simp at hq
      | ok pcu =>
      rw [h8] at hq
      simp only [pym_ok_bind] at hq
      cases h9 : pyItem pcu Key.total_usage with
      | error u => rw [h9] at hq; simp at hq
      | ok ptuv =>
      rw [h9] at hq
      simp only [pym_ok_bind] at hq
      cases h10 : pyInt ptuv with
      | error u => rw [h10] at hq; simp at hq
      | ok tp =>
      rw [h10] at hq
      simp only [pym_ok_bind] at hq
      cases h11 : pyGetD cs Key.system_cpu_usage (PyVal.int 0) with
      | error u => rw [h11] at hq; simp at hq
      | ok scv =>
      rw [h11] at hq
      simp only [pym_ok_bind] at hq
      cases h12 : pyInt scv with
      | error u => rw [h12] at hq; simp at hq
      | ok scn =>
      rw [h12] at hq
      simp only [pym_ok_bind] at hq
      cases h13 : pyGetD pre Key.system_cpu_usage (PyVal.int 0) with
      | error u => rw [h13] at hq; simp at hq
      | ok spv =>
      rw [h13] at hq
      simp only [pym_ok_bind] at hq
      cases h14 : pyInt spv with
      | error u => rw [h14] at hq; simp at hq
      | ok spn =>
      rw [h14] at hq
      simp only [pym_ok_bind] at hq
      by_cases hd : scn - spn > 0 ∧ tc - tp > 0
      · rw [if_pos hd] at hq
        cases h15 : pyGet cs Key.online_cpus with
        | error u => rw [h15] at hq; simp at hq
        | ok oc =>
        rw [h15] at hq
        simp only [pym_ok_bind] at hq
        by_cases hto : truthy oc = true
        · rw [if_pos hto] at hq
          cases h16 : pyInt oc with
          | error u => rw [h16] at hq; simp at hq
          | ok n =>
          rw [h16] at hq
          simp only [pym_ok_bind, pym_pure, Except.ok.injEq] at hq
          subst hq
          exact formula_nonneg hd.1 hd.2 (h n (reported_online_of h1 h15 h16))
        · rw [if_neg hto] at hq
          cases h18 : pyGetD cu Key.percpu_usage (PyVal.list []) with
          | error u => rw [h18] at hq; simp at hq
          | ok pp =>
          rw [h18] at hq
          simp only [pym_ok_bind] at hq
          cases h19 : pyLen pp with
          | error u => rw [h19] at hq; simp at hq
          | ok l =>
          rw [h19] at hq
          simp only [pym_ok_bind, pym_pure, Except.ok.injEq] at hq
          subst hq
          refine formula_nonneg hd.1 hd.2 ?_
          have hl0 : 0 ≤ l := pyLen_nonneg h19
          by_cases hz : l = 0
          · rw [if_neg (by omega : ¬ l ≠ 0)]
            omega
          · rw [if_pos hz]
            omega
      · rw [if_neg hd] at hq
        simp only [pym_pure, Except.ok.injEq] at hq
        subst hq
        norm_num

/-- Counterexample to C10 as stated: a well-shaped snapshot reporting
`online_cpus = -3` with positive container and system deltas makes
`calculate_cpu_percent` return −75, which is negative. -/
theorem C10_counterexample :
    Main.calculate_cpu_percent (Main.mkStats 10 5 20 0 (some (-3)) []) = -75
    ∧ ¬ (0 ≤ Main.calculate_cpu_percent (Main.mkStats 10 5 20 0 (some (-3)) [])) := by
  have h : Main.calculate_cpu_percent (Main.mkStats 10 5 20 0 (some (-3)) []) = -75 := by
    simp [Main.calculate_cpu_percent, Main.cpu_percent_body, Main.mkStats,
          Main.mkCpuStats, pyGetD, pyGet, pyItem, pyInt, pyLen, truthy, List.lookup]
    norm_num
  exact ⟨h, by rw [h]; norm_num⟩

/-- C10 (amended): `calculate_cpu_percent` is total by construction (every
exception inside the `try` is modelled and caught) and returns a
non-negative value for every snapshot in which any directly reported
`online_cpus` integer is non-negative; all non-positive-delta and
malformed cases yield 0. -/
theorem C10_cpu_percent_nonneg :
    ∀ stats : PyVal,
      (∀ n : ℤ, Main.reported_online stats = some n → 0 ≤ n) →
      0 ≤ Main.calculate_cpu_percent stats := by
  intro stats h
  unfold Main.calculate_cpu_percent
  cases hb : Main.cpu_percent_body stats with
  | error u => norm_num
  | ok q => exact cpu_percent_body_ok_nonneg stats h q hb

/-- Witness for C10 (amended) at a snapshot reporting two online CPUs. -/
theorem C10_witness :
    0 ≤ Main.calculate_cpu_percent (Main.mkStats 10 5 20 0 (some 2) []) := by
  apply C10_cpu_percent_nonneg
  intro n hn
  have h2 : Main.reported_online (Main.mkStats 10 5 20 0 (some 2) []) = some 2 := rfl
  rw [h2] at hn
  injection hn with hn2
  omega

/-- Witness for C1 (amended), matching end-to-end scenario 2:
containerDelta = 2,000,000, systemDelta = 20,000,000, onlineCpus = 2 gives
a raw percent of 20.0, and with entitlement 1.0 the effective percent is
also 20.0. -/
theorem C1_witness :
    Main.calculate_cpu_percent
        (Main.mkStats 3000000 1000000 30000000 10000000 (some 2) []) = 20
    ∧ Main.effective_cpu_percent 20 1 = 20 := by
  constructor
  · have h := C1_runtime_cpu_formula 3000000 1000000 30000000 10000000 (some 2) []
      (by norm_num)
    rw [h]
    norm_num [Main.rawPercent_spec, Main.online_cpus_fallback]
  · norm_num [Main.effective_cpu_percent]
